import Mathlib

/-!
Verification development for the gwarc repository (a WARC/CDX codec in Go).

The Go sources are shallowly embedded below.  Conventions of the embedding:
* Go byte slices and strings are modelled as Lean strings / lists of
  characters; every concrete input considered is ASCII, where Go byte
  counts and character counts coincide.
* Go maps built by header parsing are modelled as association lists in
  which the most recent insertion is kept at the front, so that lookup
  returns the value of the last write, matching Go map semantics.
* Go map iteration order is unspecified; marshalling is therefore
  parameterised by the order in which the header map keys are emitted.
* time.Time is modelled by a wall-clock record with second precision,
  which is the profile actually exercised by the codec (RFC 3339 with a
  Z zone and the 14-digit CDX stamp); the zero value is year 1, Jan 1.
* fallible Go functions returning (T, error) are embedded as Except.
-/

/-! ### Character and string helpers (models of the Go stdlib calls used) -/

/-- ASCII whitespace test; models unicode.IsSpace on the inputs considered. -/
def isWS (c : Char) : Bool :=
  c = ' ' || c = '\t' || c = '\n' || c = '\r'

/-- Trim whitespace from both ends; models strings.TrimSpace. -/
def trimChars (cs : List Char) : List Char :=
  ((cs.dropWhile isWS).reverse.dropWhile isWS).reverse

/-- String form of trimChars. -/
def goTrim (s : String) : String :=
  String.mk (trimChars s.data)

/-- Model of bufio.Reader.ReadString given a byte source: the returned
line includes the delimiter; none models the EOF-before-delimiter error. -/
def readLine : List Char → Option (List Char × List Char)
  | [] => none
  | c :: cs =>
    if c = '\n' then some ([c], cs)
    else
      match readLine cs with
      | some (l, r) => some (c :: l, r)
      | none => none

/-- Split a string at the first colon; models strings.SplitN(s, ":", 2),
with none for the no-colon case in which SplitN yields a single part. -/
def breakColon : List Char → Option (List Char × List Char)
  | [] => none
  | c :: cs =>
    if c = ':' then some ([], cs)
    else (breakColon cs).map (fun p => (c :: p.1, p.2))

/-- Helper for goFields: accumulate the current token (reversed). -/
def fieldsAux (acc : List Char) : List Char → List (List Char)
  | [] => if acc = [] then [] else [acc.reverse]
  | c :: cs =>
    if isWS c then
      if acc = [] then fieldsAux [] cs else acc.reverse :: fieldsAux [] cs
    else fieldsAux (c :: acc) cs

/-- Model of strings.Fields: whitespace-separated tokens, empties dropped. -/
def goFields (s : String) : List String :=
  (fieldsAux [] s.data).map String.mk

/-- Helper for splitting a byte stream into newline-separated lines. -/
def splitNLAux (acc : List Char) : List Char → List (List Char)
  | [] => [acc.reverse]
  | c :: cs =>
    if c = '\n' then acc.reverse :: splitNLAux [] cs
    else splitNLAux (c :: acc) cs

/-- Drop one trailing carriage return; models the dropCR step of
bufio.ScanLines. -/
def stripCR (cs : List Char) : List Char :=
  if cs.getLast? = some '\r' then cs.dropLast else cs

/-- Model of strings.TrimPrefix(s, "WARC/"). -/
def stripMarker (s : String) : String :=
  if "WARC/".data.isPrefixOf s.data then String.mk (s.data.drop 5) else s

/-- First index at which pat occurs as a contiguous sublist; models
bytes.Index (none models the -1 result). -/
def idxOfSub (pat : List Char) : List Char → Option Nat
  | [] => if pat.isPrefixOf ([] : List Char) then some 0 else none
  | c :: cs =>
    if pat.isPrefixOf (c :: cs) then some 0
    else (idxOfSub pat cs).map (fun n => n + 1)

/-- Number of (possibly overlapping) occurrences of pat in a char list. -/
def countSubAux (pat : List Char) : List Char → Nat
  | [] => 0
  | c :: cs => (if pat.isPrefixOf (c :: cs) then 1 else 0) + countSubAux pat cs

/-- Number of occurrences of pat in s. -/
def countSub (pat s : String) : Nat :=
  countSubAux pat.data s.data

/-- Join a list of strings with a separator; models strings.Join. -/
def joinSep (sep : String) : List String → String
  | [] => ""
  | [x] => x
  | x :: y :: xs => x ++ sep ++ joinSep sep (y :: xs)

/-- Numeric value of a digit list (caller checks the digits). -/
def digitsToNat (ds : List Char) : Nat :=
  ds.foldl (fun a c => a * 10 + (c.toNat - 48)) 0

/-- Model of strconv.ParseInt(s, 10, 64): an optional sign followed by at
least one decimal digit, within the int64 range. -/
def goParseInt64 (s : String) : Option Int :=
  match s.data with
  | [] => none
  | c :: cs =>
    let neg : Bool := c = '-'
    let ds : List Char := if c = '-' || c = '+' then cs else c :: cs
    if ds = [] then none
    else if ds.all Char.isDigit then
      let n := digitsToNat ds
      let v : Int := if neg then -(n : Int) else (n : Int)
      if v < -(9223372036854775808 : Int) ∨ (9223372036854775807 : Int) < v then none
      else some v
    else none

/-- Discriminate the two Except constructors. -/
def exceptOk {ε α : Type} : Except ε α → Bool
  | Except.ok _ => true
  | Except.error _ => false

/-! ### Timestamps

A wall-clock instant with second precision, the profile used by the
codec.  The zero value corresponds to Go's zero time.Time (year 1,
January 1, midnight UTC). -/

structure Timestamp where
  year : Nat
  month : Nat
  day : Nat
  hour : Nat
  minute : Nat
  second : Nat
deriving DecidableEq, Repr

def Timestamp.zero : Timestamp := ⟨1, 1, 1, 0, 0, 0⟩

/-- Model of time.Time.IsZero. -/
def Timestamp.isZero (t : Timestamp) : Bool :=
  decide (t = Timestamp.zero)

/-- Two-digit zero-padded decimal. -/
def pad2 (n : Nat) : String :=
  if n < 10 then "0" ++ toString n else toString n

/-- Four-digit zero-padded decimal. -/
def pad4 (n : Nat) : String :=
  if n < 10 then "000" ++ toString n
  else if n < 100 then "00" ++ toString n
  else if n < 1000 then "0" ++ toString n
  else toString n

/-- Model of t.Format(time.RFC3339) for UTC times with whole seconds. -/
def formatRFC3339 (t : Timestamp) : String :=
  pad4 t.year ++ "-" ++ pad2 t.month ++ "-" ++ pad2 t.day ++ "T" ++
    pad2 t.hour ++ ":" ++ pad2 t.minute ++ ":" ++ pad2 t.second ++ "Z"

/-- Model of t.Format("20060102150405"), the CDX timestamp layout. -/
def formatCDXTime (t : Timestamp) : String :=
  pad4 t.year ++ pad2 t.month ++ pad2 t.day ++
    pad2 t.hour ++ pad2 t.minute ++ pad2 t.second

/-- Numeric value of two digit characters. -/
def d2 (a b : Char) : Nat :=
  (a.toNat - 48) * 10 + (b.toNat - 48)

/-- Numeric value of four digit characters. -/
def d4 (a b c d : Char) : Nat :=
  ((a.toNat - 48) * 10 + (b.toNat - 48)) * 100 + d2 c d

/-- Model of time.Parse(time.RFC3339, s) restricted to the UTC profile
with a literal Z zone and no fractional second, which is the only shape
the embedded codec ever produces or consumes; offset zones and
per-month day bounds are not modelled (no claim exercises them). -/
def parseRFC3339 (s : String) : Option Timestamp :=
  match s.data with
  | [y1, y2, y3, y4, '-', mo1, mo2, '-', dy1, dy2, 'T',
     h1, h2, ':', mi1, mi2, ':', sc1, sc2, 'Z'] =>
    if [y1, y2, y3, y4, mo1, mo2, dy1, dy2, h1, h2, mi1, mi2, sc1, sc2].all Char.isDigit then
      let t : Timestamp :=
        ⟨d4 y1 y2 y3 y4, d2 mo1 mo2, d2 dy1 dy2, d2 h1 h2, d2 mi1 mi2, d2 sc1 sc2⟩
      if 1 ≤ t.month ∧ t.month ≤ 12 ∧ 1 ≤ t.day ∧ t.day ≤ 31 ∧
         t.hour ≤ 23 ∧ t.minute ≤ 59 ∧ t.second ≤ 59 then some t else none
    else none
  | _ => none

/-- Model of time.Parse("20060102150405", s), the CDX layout: exactly
fourteen digits, with the same range checks as parseRFC3339. -/
def parseCDXTime (s : String) : Option Timestamp :=
  match s.data with
  | [y1, y2, y3, y4, mo1, mo2, dy1, dy2, h1, h2, mi1, mi2, sc1, sc2] =>
    if [y1, y2, y3, y4, mo1, mo2, dy1, dy2, h1, h2, mi1, mi2, sc1, sc2].all Char.isDigit then
      let t : Timestamp :=
        ⟨d4 y1 y2 y3 y4, d2 mo1 mo2, d2 dy1 dy2, d2 h1 h2, d2 mi1 mi2, d2 sc1 sc2⟩
      if 1 ≤ t.month ∧ t.month ≤ 12 ∧ 1 ≤ t.day ∧ t.day ≤ 31 ∧
         t.hour ≤ 23 ∧ t.minute ≤ 59 ∧ t.second ≤ 59 then some t else none
    else none
  | _ => none

/-! ### The WARC record (src/warc.go struct WARCRecord)

Field names follow the Go struct; the Go field Type is called RecType
here because Type is reserved in Lean.  Go types: uint64 fields become
Nat, the int field becomes Int, time.Time becomes Timestamp, []string
becomes List String, []byte content becomes String (ASCII bytes). -/

structure WARCRecord where
  Version : String
  RecordID : String
  ContentLength : Nat
  Date : Timestamp
  RecType : String
  ContentType : String
  ConcurrentTo : List String
  BlockDigest : String
  PayloadDigest : String
  IPAddress : String
  RefersTo : String
  RefersToTargetURI : String
  RefersToDate : Timestamp
  TargetURI : String
  Truncated : String
  WarcinfoID : String
  Filename : String
  Profile : String
  IdentifiedPayloadType : String
  SegmentNumber : Int
  SegmentOriginID : String
  SegmentTotalLength : Nat
  Content : String
deriving DecidableEq, Repr

/-- The Go zero value of WARCRecord. -/
def WARCRecord.zero : WARCRecord :=
  { Version := "", RecordID := "", ContentLength := 0, Date := Timestamp.zero,
    RecType := "", ContentType := "", ConcurrentTo := [], BlockDigest := "",
    PayloadDigest := "", IPAddress := "", RefersTo := "", RefersToTargetURI := "",
    RefersToDate := Timestamp.zero, TargetURI := "", Truncated := "",
    WarcinfoID := "", Filename := "", Profile := "", IdentifiedPayloadType := "",
    SegmentNumber := 0, SegmentOriginID := "", SegmentTotalLength := 0, Content := "" }

/-- Model of (*WARCRecord).Validate from src/warc.go: the first missing
required field yields its error message, none means valid. -/
def WARCRecord.validate (r : WARCRecord) : Option String :=
  if r.Version = "" then some "WARC version is required"
  else if r.RecordID = "" then some "WARC-Record-ID is required"
  else if r.Date.isZero then some "WARC-Date is required"
  else if r.RecType = "" then some "WARC-Type is required"
  else none

/-! ### gwarc.Marshal (src/marshal.go)

The reflection loop of Marshal visits the tagged struct fields in
declaration order, formats each value with formatFieldValue, skips a
field whose formatted value is empty when its tag carries omitempty,
and stores the line data in a Go map.  warcHeaderDescs spells that loop
out field by field: (wire key, formatted value, omitempty flag). -/

def warcHeaderDescs (r : WARCRecord) : List (String × String × Bool) :=
  [("WARC-Record-ID", r.RecordID, false),
   ("Content-Length", toString r.ContentLength, false),
   ("WARC-Date", formatRFC3339 r.Date, false),
   ("WARC-Type", r.RecType, false),
   ("Content-Type", r.ContentType, true),
   ("WARC-Concurrent-To", joinSep ", " r.ConcurrentTo, true),
   ("WARC-Block-Digest", r.BlockDigest, true),
   ("WARC-Payload-Digest", r.PayloadDigest, true),
   ("WARC-IP-Address", r.IPAddress, true),
   ("WARC-Refers-To", r.RefersTo, true),
   ("WARC-Refers-To-Target-URI", r.RefersToTargetURI, true),
   ("WARC-Refers-To-Date", formatRFC3339 r.RefersToDate, true),
   ("WARC-Target-URI", r.TargetURI, true),
   ("WARC-Truncated", r.Truncated, true),
   ("WARC-Warcinfo-ID", r.WarcinfoID, true),
   ("WARC-Filename", r.Filename, true),
   ("WARC-Profile", r.Profile, true),
   ("WARC-Identified-Payload-Type", r.IdentifiedPayloadType, true),
   ("WARC-Segment-Number", toString r.SegmentNumber, true),
   ("WARC-Segment-Origin-ID", r.SegmentOriginID, true),
   ("WARC-Segment-Total-Length", toString r.SegmentTotalLength, true)]

/-- The header map contents built by Marshal's field loop.  The wire
keys are pairwise distinct, so the association list is exactly the map. -/
def warcHeaders (r : WARCRecord) : List (String × String) :=
  (warcHeaderDescs r).filterMap
    (fun e => if e.2.1 = "" && e.2.2 then none else some (e.1, e.2.1))

/-- Model of gwarc.Marshal applied to a WARCRecord (src/marshal.go).
byPtr records whether the Go caller passed *WARCRecord or a WARCRecord
value: the interface assertion v.(interface that has Validate) succeeds
only for the pointer, because Validate has a pointer receiver, so the
required-field check runs only when byPtr is true.  order is the
sequence in which the range loop over the header map visits the keys;
Go leaves that order unspecified, and a faithful order is any
permutation of (warcHeaders r).map Prod.fst.  After the map loop,
Marshal writes a second Content-Length line recomputed from
len(Content), a blank line, and the content bytes. -/
def gwarcMarshal (byPtr : Bool) (order : List String) (r : WARCRecord) :
    Except String String :=
  match (if byPtr then WARCRecord.validate r else none) with
  | some e => Except.error e
  | none =>
    let hs := warcHeaders r
    let headerPart := order.foldl
      (fun acc k =>
        match hs.lookup k with
        | some v => acc ++ k ++ ": " ++ v ++ "\r\n"
        | none => acc) ""
    Except.ok ("WARC/" ++ r.Version ++ "\r\n" ++ headerPart ++
      "Content-Length: " ++ toString r.Content.length ++ "\r\n\r\n" ++ r.Content)

/-! ### warc.Unmarshal (src/unnamed/part_002)

Unmarshal reads the version line, loops over header lines until the
first blank line, reads Content-Length bytes, then runs the reflection
loop that calls setField on each tagged struct field. -/

/-- The header-line loop of Unmarshal.  Each iteration reads one line
(error on EOF), trims it, stops at the blank line, splits at the first
colon (error when there is none), and inserts the trimmed key and value
into the header map; the newest insertion is kept at the front so that
lookup sees the last write.  The fuel argument only serves termination:
every iteration consumes at least the newline character, so the callers
pass length + 1 fuel, which never runs out before EOF does. -/
def readHeadersF : Nat → List (String × String) → List Char →
    Except String (List (String × String) × List Char)
  | 0, _, _ => Except.error "failed to read header"
  | fuel + 1, acc, cs =>
    match readLine cs with
    | none => Except.error "failed to read header"
    | some (l, rest) =>
      let line := String.mk (trimChars l)
      if line = "" then Except.ok (acc, rest)
      else
        match breakColon line.data with
        | none => Except.error ("invalid header format: " ++ line)
        | some (k, v) =>
          readHeadersF fuel
            ((String.mk (trimChars k), String.mk (trimChars v)) :: acc) rest

/-- The tail of Unmarshal after version parsing and header parsing:
content extraction and the setField reflection loop.

Content-Length is parsed with the error discarded (the Go code uses the
blank identifier), so an absent or malformed value silently becomes 0.
The content buffer has exactly the declared length: Read fills it with
the available bytes and the remainder stays NUL, and only a declared
positive length with no bytes at all available yields the read error.

setField handles only the String, Int/Int64 and time.Time cases:
* string-kind fields (including WARCRecordType and TruncatedReason) are
  set to the raw header value, which is the empty string when the key is
  absent — for an absent optional key the loop skips the field, leaving
  the same empty string;
* the int field WARC-Segment-Number is set only when strconv.ParseInt
  succeeds, the parse error being silently dropped;
* time.Time fields are set only when time.Parse succeeds, the parse
  error again being silently dropped, so an absent or malformed date
  leaves the zero time;
* uint64 fields (Content-Length, WARC-Segment-Total-Length) and the
  []string field (WARC-Concurrent-To) match no case of setField's kind
  switch and always keep their zero values. -/
def warcFinish (version : String) (hmap : List (String × String))
    (body : List Char) : Except String WARCRecord :=
  let n := (Int.toNat ((goParseInt64 ((hmap.lookup "Content-Length").getD "")).getD 0))
  if 0 < n ∧ body = [] then Except.error "failed to read content"
  else
    Except.ok
      { Version := version
        RecordID := (hmap.lookup "WARC-Record-ID").getD ""
        ContentLength := 0
        Date := ((hmap.lookup "WARC-Date").bind parseRFC3339).getD Timestamp.zero
        RecType := (hmap.lookup "WARC-Type").getD ""
        ContentType := (hmap.lookup "Content-Type").getD ""
        ConcurrentTo := []
        BlockDigest := (hmap.lookup "WARC-Block-Digest").getD ""
        PayloadDigest := (hmap.lookup "WARC-Payload-Digest").getD ""
        IPAddress := (hmap.lookup "WARC-IP-Address").getD ""
        RefersTo := (hmap.lookup "WARC-Refers-To").getD ""
        RefersToTargetURI := (hmap.lookup "WARC-Refers-To-Target-URI").getD ""
        RefersToDate := ((hmap.lookup "WARC-Refers-To-Date").bind parseRFC3339).getD Timestamp.zero
        TargetURI := (hmap.lookup "WARC-Target-URI").getD ""
        Truncated := (hmap.lookup "WARC-Truncated").getD ""
        WarcinfoID := (hmap.lookup "WARC-Warcinfo-ID").getD ""
        Filename := (hmap.lookup "WARC-Filename").getD ""
        Profile := (hmap.lookup "WARC-Profile").getD ""
        IdentifiedPayloadType := (hmap.lookup "WARC-Identified-Payload-Type").getD ""
        SegmentNumber := ((hmap.lookup "WARC-Segment-Number").bind goParseInt64).getD 0
        SegmentOriginID := (hmap.lookup "WARC-Segment-Origin-ID").getD ""
        SegmentTotalLength := 0
        Content := String.mk (body.take n ++ List.replicate (n - body.length) (Char.ofNat 0)) }

/-- Version check plus the rest of Unmarshal after the version line has
been read: versions other than 1.0 and 1.1 are rejected, then the
header loop runs and warcFinish completes the record. -/
def warcAfterVersion (version : String) (rest : List Char) :
    Except String WARCRecord :=
  if version ≠ "1.0" ∧ version ≠ "1.1" then
    Except.error ("unsupported WARC version: " ++ version)
  else
    match readHeadersF (rest.length + 1) [] rest with
    | Except.error e => Except.error e
    | Except.ok (hmap, body) => warcFinish version hmap body

/-- Model of warc.Unmarshal (src/unnamed/part_002) decoding into a
plain WARCRecord, which implements no custom unmarshaler interface. -/
def warcUnmarshal (data : String) : Except String WARCRecord :=
  match readLine data.data with
  | none => Except.error "failed to read version"
  | some (vline, rest) =>
    warcAfterVersion (goTrim (stripMarker (String.mk vline))) rest

/-- Encode with gwarc.Marshal on a pointer, then decode the produced
bytes with warc.Unmarshal. -/
def roundTripWARC (order : List String) (r : WARCRecord) :
    Except String WARCRecord :=
  Except.bind (gwarcMarshal true order r) warcUnmarshal

/-! ### The stream segmenter (src/cdx/marshal.go: NewWARC, NextChunk)

NewWARC installs a bufio.Scanner split function that searches the raw
buffered bytes for the literal "WARC/": a match at a positive offset
emits the bytes before it as a token, a match at offset zero searches
for the next occurrence after the five marker bytes and emits up to it,
and at EOF with no further occurrence the remainder is the final token;
when no occurrence exists at EOF the scanner simply stops.  warcChunks
is the sequence of tokens NextChunk yields for a fully available
source.  The fuel argument only serves termination: every emitted token
consumes at least one byte, so length + 1 fuel never runs out. -/

def warcMarker : List Char := "WARC/".data

def warcChunksAux : Nat → List Char → List (List Char)
  | 0, _ => []
  | fuel + 1, cs =>
    match idxOfSub warcMarker cs with
    | none => []
    | some i =>
      if i > 0 then cs.take i :: warcChunksAux fuel (cs.drop i)
      else
        match idxOfSub warcMarker (cs.drop 5) with
        | some j => cs.take (j + 5) :: warcChunksAux fuel (cs.drop (j + 5))
        | none => [cs]

def warcChunks (s : String) : List String :=
  (warcChunksAux (s.length + 1) s.data).map String.mk

/-! ### The CDX data model (src/cdx/cdx.go)

CDXRecord carries every tagged field of the Go struct, in declaration
order; Go types int and int64 become Int, time.Time becomes Timestamp. -/

structure CDXRecord where
  CanonizedURL : String
  NewsGroup : String
  RulespaceCategory : String
  CanonizedFrame : String
  CanonizedHost : String
  CanonizedImage : String
  CanonizedJump : String
  CanonizedLink : String
  MassagedURL : String
  CanonizedPath : String
  CanonizedRedirect : String
  OriginalURL : String
  OriginalHost : String
  OriginalPath : String
  Date : Timestamp
  IP : String
  Language : String
  Port : Int
  Title : String
  MetaTags : String
  OldChecksum : String
  NewChecksum : String
  CompressedSize : Int
  ArcDocumentLength : Int
  CompressedDatOffset : Int
  UncompressedDatOffset : Int
  CompressedArcOffset : Int
  UncompressedArcOffset : Int
  Frame : String
  Image : String
  JumpPoint : String
  Link : String
  URLsInHref : String
  URLsInSrc : String
  URLsInScript : String
  MIMEType : String
  StatusCode : Int
  Redirect : String
  Filename : String
  FBIS : String
  Uniqueness : String
deriving DecidableEq, Repr

/-- The Go zero value of CDXRecord. -/
def CDXRecord.zero : CDXRecord :=
  { CanonizedURL := "", NewsGroup := "", RulespaceCategory := "",
    CanonizedFrame := "", CanonizedHost := "", CanonizedImage := "",
    CanonizedJump := "", CanonizedLink := "", MassagedURL := "",
    CanonizedPath := "", CanonizedRedirect := "", OriginalURL := "",
    OriginalHost := "", OriginalPath := "", Date := Timestamp.zero,
    IP := "", Language := "", Port := 0, Title := "", MetaTags := "",
    OldChecksum := "", NewChecksum := "", CompressedSize := 0,
    ArcDocumentLength := 0, CompressedDatOffset := 0,
    UncompressedDatOffset := 0, CompressedArcOffset := 0,
    UncompressedArcOffset := 0, Frame := "", Image := "", JumpPoint := "",
    Link := "", URLsInHref := "", URLsInSrc := "", URLsInScript := "",
    MIMEType := "", StatusCode := 0, Redirect := "", Filename := "",
    FBIS := "", Uniqueness := "" }

/-- A CDX format is the ordered list of single-character column codes. -/
def CDX9 : List Char := ['N', 'b', 'a', 'm', 's', 'k', 'r', 'V', 'g']

def CDX11 : List Char := ['N', 'b', 'a', 'm', 's', 'k', 'r', 'M', 'S', 'V', 'g']

structure CDXHeader where
  Format : List Char
  Fields : List Char
  Delimiter : Char
deriving DecidableEq, Repr

structure CDXFile where
  Header : CDXHeader
  Records : List CDXRecord
deriving DecidableEq, Repr

/-- Model of cdx.parseFormat (src/cdx/cdx.go): it runs strings.Fields on
the CONCATENATION of the format characters, so for any format whose
codes contain no whitespace there is at most one token and the result
is nil. -/
def parseFormat (format : List Char) : List Char :=
  let parts := fieldsAux [] format
  if parts.length > 1 then (parts.drop 1).map (fun p => p.headD ' ') else []

/-! ### cdx.Unmarshal (second document of src/warc.go)

The decoder scans the input line by line: the first line must carry the
CDX prefix and its whitespace-separated tokens after the first give the
column codes (first byte of each token); every further non-empty line
must split into exactly as many whitespace-separated fields as there
are columns, and each field is converted by setField according to the
kind of the struct field whose cdx tag matches the column code. -/

/-- Model of cdx.setField: the struct field with the matching cdx tag is
set from the raw string according to its reflect kind; string fields
take the value verbatim, integer fields require strconv.ParseInt to
succeed, the time field requires time.Parse of the CDX layout to
succeed, and a code matching no tag is the unknown-field error.  Note
that the sentinel "-" receives no special treatment here. -/
def cdxSetField (r : CDXRecord) (c : Char) (value : String) :
    Except String CDXRecord :=
  match c with
  | 'A' => Except.ok { r with CanonizedURL := value }
  | 'B' => Except.ok { r with NewsGroup := value }
  | 'C' => Except.ok { r with RulespaceCategory := value }
  | 'F' => Except.ok { r with CanonizedFrame := value }
  | 'H' => Except.ok { r with CanonizedHost := value }
  | 'I' => Except.ok { r with CanonizedImage := value }
  | 'J' => Except.ok { r with CanonizedJump := value }
  | 'L' => Except.ok { r with CanonizedLink := value }
  | 'N' => Except.ok { r with MassagedURL := value }
  | 'P' => Except.ok { r with CanonizedPath := value }
  | 'R' => Except.ok { r with CanonizedRedirect := value }
  | 'a' => Except.ok { r with OriginalURL := value }
  | 'h' => Except.ok { r with OriginalHost := value }
  | 'p' => Except.ok { r with OriginalPath := value }
  | 'b' =>
    match parseCDXTime value with
    | some t => Except.ok { r with Date := t }
    | none => Except.error ("cannot parse time value " ++ value)
  | 'e' => Except.ok { r with IP := value }
  | 'Q' => Except.ok { r with Language := value }
  | 'o' =>
    match goParseInt64 value with
    | some n => Except.ok { r with Port := n }
    | none => Except.error ("cannot parse integer value " ++ value)
  | 't' => Except.ok { r with Title := value }
  | 'M' => Except.ok { r with MetaTags := value }
  | 'c' => Except.ok { r with OldChecksum := value }
  | 'k' => Except.ok { r with NewChecksum := value }
  | 'S' =>
    match goParseInt64 value with
    | some n => Except.ok { r with CompressedSize := n }
    | none => Except.error ("cannot parse integer value " ++ value)
  | 'n' =>
    match goParseInt64 value with
    | some n => Except.ok { r with ArcDocumentLength := n }
    | none => Except.error ("cannot parse integer value " ++ value)
  | 'D' =>
    match goParseInt64 value with
    | some n => Except.ok { r with CompressedDatOffset := n }
    | none => Except.error ("cannot parse integer value " ++ value)
  | 'd' =>
    match goParseInt64 value with
    | some n => Except.ok { r with UncompressedDatOffset := n }
    | none => Except.error ("cannot parse integer value " ++ value)
  | 'V' =>
    match goParseInt64 value with
    | some n => Except.ok { r with CompressedArcOffset := n }
    | none => Except.error ("cannot parse integer value " ++ value)
  | 'v' =>
    match goParseInt64 value with
    | some n => Except.ok { r with UncompressedArcOffset := n }
    | none => Except.error ("cannot parse integer value " ++ value)
  | 'f' => Except.ok { r with Frame := value }
  | 'i' => Except.ok { r with Image := value }
  | 'j' => Except.ok { r with JumpPoint := value }
  | 'l' => Except.ok { r with Link := value }
  | 'x' => Except.ok { r with URLsInHref := value }
  | 'y' => Except.ok { r with URLsInSrc := value }
  | 'z' => Except.ok { r with URLsInScript := value }
  | 'm' => Except.ok { r with MIMEType := value }
  | 's' =>
    match goParseInt64 value with
    | some n => Except.ok { r with StatusCode := n }
    | none => Except.error ("cannot parse integer value " ++ value)
  | 'r' => Except.ok { r with Redirect := value }
  | 'g' => Except.ok { r with Filename := value }
  | 'K' => Except.ok { r with FBIS := value }
  | 'U' => Except.ok { r with Uniqueness := value }
  | _ => Except.error ("unknown field: " ++ String.mk [c])

/-- Apply cdxSetField to each (column code, raw field) pair of one row,
wrapping an error the way Unmarshal does. -/
def cdxSetFields (r : CDXRecord) : List (Char × String) → Except String CDXRecord
  | [] => Except.ok r
  | (c, v) :: rest =>
    match cdxSetField r c v with
    | Except.error e =>
      Except.error ("error parsing field " ++ String.mk [c] ++ ": " ++ e)
    | Except.ok r2 => cdxSetFields r2 rest

/-- The record loop of cdx.Unmarshal: empty lines are skipped, a
non-empty line whose field count differs from the column count is the
field-count-mismatch error, and otherwise the fields are converted one
by one into a fresh zero record that is appended to the result.  An
error aborts immediately: no partial record list is returned. -/
def parseRows (format : List Char) : List String → Except String (List CDXRecord)
  | [] => Except.ok []
  | row :: rest =>
    if row = "" then parseRows format rest
    else
      if (goFields row).length ≠ format.length then
        Except.error ("invalid record length: got " ++
          toString (goFields row).length ++ ", want " ++ toString format.length)
      else
        match cdxSetFields CDXRecord.zero (format.zip (goFields row)) with
        | Except.error e => Except.error e
        | Except.ok record => Except.map (fun rs => record :: rs) (parseRows format rest)

/-- The lines a bufio.Scanner with ScanLines yields for the input. -/
def cdxLines (data : String) : List String :=
  (splitNLAux [] data.data).map (fun l => String.mk (stripCR l))

/-- The column codes parsed from the CDX header line: the first byte of
every whitespace-separated token after the leading CDX token. -/
def cdxFormatOf (header : String) : List Char :=
  ((goFields header).drop 1).map (fun s => s.data.headD ' ')

/-- Model of cdx.Unmarshal (second document of src/warc.go) decoding a
whole CDX file.  Empty input is the empty-file error (the scanner
yields no line); a header line without the CDX prefix is the
invalid-header error; otherwise the rows are decoded by parseRows and
the resulting file carries the format together with the
NewCDXFile header (space delimiter, Fields from parseFormat, which is
nil for whitespace-free codes). -/
def cdxUnmarshal (data : String) : Except String CDXFile :=
  if data = "" then Except.error "empty CDX file"
  else
    match cdxLines data with
    | [] => Except.error "empty CDX file"
    | header :: rows =>
      if "CDX".data.isPrefixOf header.data then
        match parseRows (cdxFormatOf header) rows with
        | Except.error e => Except.error e
        | Except.ok recs =>
          Except.ok
            { Header :=
                { Format := cdxFormatOf header, Delimiter := ' ',
                  Fields := parseFormat (cdxFormatOf header) },
              Records := recs }
      else Except.error ("invalid CDX header: " ++ header)

/-! ### cdx.Marshal (src/cdx/marshal.go)

marshalRecord resolves each format column to the struct field with the
matching cdx tag and renders it with formatField; GoValue is the
reflect.Value view of a field (the kinds formatField inspects). -/

inductive GoValue where
  | str (s : String)
  | int (n : Int)
  | time (t : Timestamp)
deriving DecidableEq, Repr

/-- The zero test formatField applies per kind: empty string, zero
integer, zero time. -/
def GoValue.isZero : GoValue → Bool
  | GoValue.str s => s = ""
  | GoValue.int n => n = 0
  | GoValue.time t => t.isZero

/-- Model of cdx.formatField: empty or zero values render as the "-"
sentinel, other values render verbatim, base 10, or in the CDX time
layout respectively. -/
def formatField : GoValue → String
  | GoValue.str s => if s = "" then "-" else s
  | GoValue.int n => if n = 0 then "-" else toString n
  | GoValue.time t => if t.isZero then "-" else formatCDXTime t

/-- The reflect.Value of the struct field whose cdx tag is the given
column code (none when no tag matches, in which case marshalRecord
leaves the column empty). -/
def getCDXValue (r : CDXRecord) : Char → Option GoValue
  | 'A' => some (GoValue.str r.CanonizedURL)
  | 'B' => some (GoValue.str r.NewsGroup)
  | 'C' => some (GoValue.str r.RulespaceCategory)
  | 'F' => some (GoValue.str r.CanonizedFrame)
  | 'H' => some (GoValue.str r.CanonizedHost)
  | 'I' => some (GoValue.str r.CanonizedImage)
  | 'J' => some (GoValue.str r.CanonizedJump)
  | 'L' => some (GoValue.str r.CanonizedLink)
  | 'N' => some (GoValue.str r.MassagedURL)
  | 'P' => some (GoValue.str r.CanonizedPath)
  | 'R' => some (GoValue.str r.CanonizedRedirect)
  | 'a' => some (GoValue.str r.OriginalURL)
  | 'h' => some (GoValue.str r.OriginalHost)
  | 'p' => some (GoValue.str r.OriginalPath)
  | 'b' => some (GoValue.time r.Date)
  | 'e' => some (GoValue.str r.IP)
  | 'Q' => some (GoValue.str r.Language)
  | 'o' => some (GoValue.int r.Port)
  | 't' => some (GoValue.str r.Title)
  | 'M' => some (GoValue.str r.MetaTags)
  | 'c' => some (GoValue.str r.OldChecksum)
  | 'k' => some (GoValue.str r.NewChecksum)
  | 'S' => some (GoValue.int r.CompressedSize)
  | 'n' => some (GoValue.int r.ArcDocumentLength)
  | 'D' => some (GoValue.int r.CompressedDatOffset)
  | 'd' => some (GoValue.int r.UncompressedDatOffset)
  | 'V' => some (GoValue.int r.CompressedArcOffset)
  | 'v' => some (GoValue.int r.UncompressedArcOffset)
  | 'f' => some (GoValue.str r.Frame)
  | 'i' => some (GoValue.str r.Image)
  | 'j' => some (GoValue.str r.JumpPoint)
  | 'l' => some (GoValue.str r.Link)
  | 'x' => some (GoValue.str r.URLsInHref)
  | 'y' => some (GoValue.str r.URLsInSrc)
  | 'z' => some (GoValue.str r.URLsInScript)
  | 'm' => some (GoValue.str r.MIMEType)
  | 's' => some (GoValue.int r.StatusCode)
  | 'r' => some (GoValue.str r.Redirect)
  | 'g' => some (GoValue.str r.Filename)
  | 'K' => some (GoValue.str r.FBIS)
  | 'U' => some (GoValue.str r.Uniqueness)
  | _ => none

/-- Model of cdx.marshalRecord: one rendered column per format code,
joined with the delimiter. -/
def marshalRecord (r : CDXRecord) (fields : List Char) (delim : Char) : String :=
  joinSep (String.mk [delim])
    (fields.map (fun c =>
      match getCDXValue r c with
      | some v => formatField v
      | none => ""))

/-- The CDX header line: CDX followed by the column codes. -/
def cdxFormatString (fmt : List Char) : String :=
  joinSep " " ("CDX" :: fmt.map (fun c => String.mk [c]))

/-- Model of cdx.Marshal on a well-typed *CDXFile: the header line when
the format is non-empty, then one rendered row per record, each
terminated by a newline. -/
def cdxMarshal (f : CDXFile) : String :=
  (if f.Header.Format = [] then "" else cdxFormatString f.Header.Format ++ "\n") ++
    (f.Records.map (fun r =>
      marshalRecord r f.Header.Format f.Header.Delimiter ++ "\n")).foldl
      (fun a b => a ++ b) ""

/-! ### Spec-side predicate used by the header-line theorems -/

/-- Some header line before the first blank line (and before EOF) lacks
a colon, i.e. the data contains a line that the header loop will reject.
The recursion mirrors readHeadersF step for step, sharing its fuel. -/
def hasBadF : Nat → List Char → Bool
  | 0, _ => false
  | fuel + 1, cs =>
    match readLine cs with
    | none => false
    | some (l, rest) =>
      let line := String.mk (trimChars l)
      if line = "" then false
      else
        match breakColon line.data with
        | none => true
        | some _ => hasBadF fuel rest

/-! ### Concrete inputs and expected values used by the claims -/

/-- C1: first record, whose 9-byte payload contains the marker bytes. -/
def c1rec1 : String :=
  "WARC/1.0\r\nWARC-Record-ID: <urn:uuid:a>\r\nContent-Length: 9\r\nWARC-Date: 2024-01-01T10:00:00Z\r\nWARC-Type: response\r\n\r\nxxWARC/yy"

/-- C1: second record, empty payload. -/
def c1rec2 : String :=
  "WARC/1.0\r\nWARC-Record-ID: <urn:uuid:b>\r\nContent-Length: 0\r\nWARC-Date: 2024-01-01T10:00:00Z\r\nWARC-Type: response\r\n\r\n"

/-- C1: the first chunk the naive splitter actually yields: record 1 cut
off at the marker occurrence inside its payload. -/
def c1chunkA : String :=
  "WARC/1.0\r\nWARC-Record-ID: <urn:uuid:a>\r\nContent-Length: 9\r\nWARC-Date: 2024-01-01T10:00:00Z\r\nWARC-Type: response\r\n\r\nxx"

/-- C2: a valid record carrying a concurrent-record list and a
consistent content length. -/
def c2rec : WARCRecord :=
  { WARCRecord.zero with
    Version := "1.0", RecordID := "<urn:uuid:abc>", ContentLength := 13,
    Date := ⟨2024, 1, 1, 10, 0, 0⟩, RecType := "response",
    ConcurrentTo := ["<urn:uuid:c1>"], Content := "Hello, World!" }

/-- C2: the declaration-order key list of c2rec's header map. -/
def c2order : List String :=
  ["WARC-Record-ID", "Content-Length", "WARC-Date", "WARC-Type",
   "WARC-Concurrent-To", "WARC-Refers-To-Date", "WARC-Segment-Number",
   "WARC-Segment-Total-Length"]

/-- C2: what decode(encode(c2rec)) actually produces. -/
def c2decoded : WARCRecord :=
  { c2rec with
    ContentLength := 0, ConcurrentTo := [] }

/-- C3: the concrete decoding scenario of the specification. -/
def c3input : String :=
  "WARC/1.0\r\nWARC-Type: response\r\nWARC-Date: 2024-01-01T10:00:00Z\r\nWARC-Record-ID: <urn:uuid:abc>\r\nContent-Length: 13\r\nContent-Type: text/plain\r\n\r\nHello, World!"

/-- C3: the record the decoder actually produces for c3input. -/
def c3decoded : WARCRecord :=
  { WARCRecord.zero with
    Version := "1.0", RecordID := "<urn:uuid:abc>",
    Date := ⟨2024, 1, 1, 10, 0, 0⟩, RecType := "response",
    ContentType := "text/plain", Content := "Hello, World!" }

/-- C3: a header block whose required WARC-Date key is absent. -/
def c3inputB : String :=
  "WARC/1.0\r\nWARC-Record-ID: <urn:uuid:c3>\r\nContent-Length: 0\r\nWARC-Type: response\r\n\r\n"

/-- C3: the record the decoder actually produces for c3inputB. -/
def c3decodedB : WARCRecord :=
  { WARCRecord.zero with
    Version := "1.0", RecordID := "<urn:uuid:c3>", RecType := "response" }

/-- C4: a valid record whose stored ContentLength (5) disagrees with its
13-byte payload. -/
def c4rec : WARCRecord :=
  { WARCRecord.zero with
    Version := "1.0", RecordID := "<urn:uuid:d>", ContentLength := 5,
    Date := ⟨2024, 1, 1, 10, 0, 0⟩, RecType := "response",
    Content := "Hello, World!" }

/-- C4: the declaration-order key list of c4rec's header map. -/
def c4order1 : List String :=
  ["WARC-Record-ID", "Content-Length", "WARC-Date", "WARC-Type",
   "WARC-Refers-To-Date", "WARC-Segment-Number", "WARC-Segment-Total-Length"]

/-- C4: the same keys visited in the opposite order, an equally legal Go
map iteration order. -/
def c4order2 : List String := c4order1.reverse

/-- C4: Marshal output under c4order1. -/
def c4out1 : String :=
  "WARC/1.0\r\nWARC-Record-ID: <urn:uuid:d>\r\nContent-Length: 5\r\nWARC-Date: 2024-01-01T10:00:00Z\r\nWARC-Type: response\r\nWARC-Refers-To-Date: 0001-01-01T00:00:00Z\r\nWARC-Segment-Number: 0\r\nWARC-Segment-Total-Length: 0\r\nContent-Length: 13\r\n\r\nHello, World!"

/-- C4: Marshal output under c4order2. -/
def c4out2 : String :=
  "WARC/1.0\r\nWARC-Segment-Total-Length: 0\r\nWARC-Segment-Number: 0\r\nWARC-Refers-To-Date: 0001-01-01T00:00:00Z\r\nWARC-Type: response\r\nWARC-Date: 2024-01-01T10:00:00Z\r\nContent-Length: 5\r\nWARC-Record-ID: <urn:uuid:d>\r\nContent-Length: 13\r\n\r\nHello, World!"

/-- C5: a header block missing the required WARC-Record-ID key. -/
def c5input : String :=
  "WARC/1.0\r\nContent-Length: 0\r\nWARC-Date: 2024-01-01T10:00:00Z\r\nWARC-Type: response\r\n\r\n"

/-- C5: the record the decoder actually produces for c5input. -/
def c5decoded : WARCRecord :=
  { WARCRecord.zero with
    Version := "1.0", Date := ⟨2024, 1, 1, 10, 0, 0⟩, RecType := "response" }

/-- C5: a header block missing the required WARC-Type key. -/
def c5inputB : String :=
  "WARC/1.0\r\nWARC-Record-ID: <urn:uuid:b5>\r\nContent-Length: 0\r\nWARC-Date: 2024-01-01T10:00:00Z\r\n\r\n"

/-- C5: the record the decoder actually produces for c5inputB. -/
def c5decodedB : WARCRecord :=
  { WARCRecord.zero with
    Version := "1.0", RecordID := "<urn:uuid:b5>", Date := ⟨2024, 1, 1, 10, 0, 0⟩ }

/-- C5 witness record: valid except for its zero Date. -/
def c5recW : WARCRecord :=
  { WARCRecord.zero with
    Version := "1.0", RecordID := "<urn:uuid:w5>", RecType := "response" }

/-- C6: a CDX9 file whose row carries the sentinel in the string-kind
redirect column. -/
def c6inputA : String :=
  "CDX N b a m s k r V g\nu 20010424210312 u text/html 200 K - 12345 f.gz"

/-- C6: the same row but with the sentinel in the integer-kind offset
column V. -/
def c6inputB : String :=
  "CDX N b a m s k r V g\nu 20010424210312 u text/html 200 K ok - f.gz"

/-- C6: a record with empty Redirect and zero CompressedArcOffset. -/
def c6rec : CDXRecord :=
  { CDXRecord.zero with
    MassagedURL := "u", Date := ⟨2001, 4, 24, 21, 3, 12⟩, OriginalURL := "u",
    MIMEType := "text/html", StatusCode := 200, NewChecksum := "K",
    Filename := "f.gz" }

/-- C6: a CDX9 file holding c6rec. -/
def c6file : CDXFile :=
  { Header := { Format := CDX9, Fields := [], Delimiter := ' ' },
    Records := [c6rec] }

/-- C6: the encoder output for c6file, with "-" for the empty and zero
columns. -/
def c6fileOut : String :=
  "CDX N b a m s k r V g\nu 20010424210312 u text/html 200 K - - f.gz\n"

/-- C7: a record whose WARC-Segment-Number value is not an integer. -/
def c7input : String :=
  "WARC/1.0\r\nWARC-Record-ID: <urn:uuid:a7>\r\nContent-Length: 0\r\nWARC-Date: 2024-01-01T10:00:00Z\r\nWARC-Type: response\r\nWARC-Segment-Number: abc\r\n\r\n"

/-- C7: the record the decoder actually produces for c7input. -/
def c7decoded : WARCRecord :=
  { WARCRecord.zero with
    Version := "1.0", RecordID := "<urn:uuid:a7>",
    Date := ⟨2024, 1, 1, 10, 0, 0⟩, RecType := "response" }

/-- C8: a record whose WARC-Record-ID header line contains four colons. -/
def c8input : String :=
  "WARC/1.0\r\nWARC-Record-ID: <urn:uuid:x:y>\r\nContent-Length: 0\r\nWARC-Date: 2024-01-01T10:00:00Z\r\nWARC-Type: response\r\n\r\n"

/-- C8: the record the decoder actually produces for c8input. -/
def c8decoded : WARCRecord :=
  { WARCRecord.zero with
    Version := "1.0", RecordID := "<urn:uuid:x:y>",
    Date := ⟨2024, 1, 1, 10, 0, 0⟩, RecType := "response" }

/-- C8 witness input: its first header line has no colon. -/
def c8winput : String := "WARC/1.0\r\nBadLine\r\n\r\n"

/-- C8 witness: the version line of c8winput. -/
def c8wvline : List Char := "WARC/1.0\r\n".data

/-- C8 witness: the bytes after the version line of c8winput. -/
def c8wrest : List Char := "BadLine\r\n\r\n".data

/-- C9 witness input: a two-column format with a one-field row. -/
def c9w : String := "CDX N b\nx"

/-- C10 witness record: missing its required RecordID. -/
def c10rec : WARCRecord :=
  { WARCRecord.zero with
    Version := "1.0" }

/-! ### Helper lemmas -/

/-- Mapping the success value does not change whether an Except is ok. -/
theorem exceptOk_map {ε α β : Type} (f : α → β) (e : Except ε α) :
    exceptOk (Except.map f e) = exceptOk e := by
  cases e <;> rfl

/-- If some header line before the first blank line lacks a colon, the
header loop fails. -/
theorem readHeadersF_bad :
    ∀ (fuel : Nat) (acc : List (String × String)) (cs : List Char),
      hasBadF fuel cs = true →
      exceptOk (readHeadersF fuel acc cs) = false := by
  intro fuel
  induction fuel with
  | zero => intro acc cs h; simp [hasBadF] at h
  | succ n ih =>
    intro acc cs h
    simp only [hasBadF] at h
    simp only [readHeadersF]
    cases hrl : readLine cs with
    | none => simp [hrl] at h
    | some p =>
      obtain ⟨l, rest⟩ := p
      simp only [hrl] at h ⊢
      by_cases hline : String.mk (trimChars l) = ""
      · simp [hline] at h
      · simp only [if_neg hline] at h ⊢
        cases hbc : breakColon (String.mk (trimChars l)).data with
        | none => simp [hbc]; rfl
        | some kv =>
          simp only [hbc] at h ⊢
          exact ih _ rest h

/-- Version checking and the remainder of Unmarshal cannot succeed when
the header block contains a colonless line. -/
theorem warcAfterVersion_bad (version : String) (rest : List Char)
    (h : hasBadF (rest.length + 1) rest = true) :
    exceptOk (warcAfterVersion version rest) = false := by
  simp only [warcAfterVersion]
  by_cases hv : version ≠ "1.0" ∧ version ≠ "1.1"
  · simp [hv, exceptOk]
  · simp only [if_neg hv]
    have hbad := readHeadersF_bad (rest.length + 1) [] rest h
    cases hr : readHeadersF (rest.length + 1) [] rest with
    | error e => simp [hr, exceptOk]
    | ok p => simp [hr, exceptOk] at hbad

/-- If any non-empty row has the wrong field count, the row loop fails. -/
theorem parseRows_not_ok :
    ∀ (format : List Char) (rows : List String) (row : String),
      row ∈ rows → row ≠ "" → (goFields row).length ≠ format.length →
      exceptOk (parseRows format rows) = false := by
  intro format rows
  induction rows with
  | nil => intro row hmem _ _; exact absurd hmem (List.not_mem_nil row)
  | cons r rs ih =>
    intro row hmem hne hlen
    simp only [parseRows]
    rcases List.mem_cons.mp hmem with heq | hmem2
    · subst heq
      rw [if_neg hne, if_pos hlen]
      rfl
    · by_cases hr : r = ""
      · rw [if_pos hr]; exact ih row hmem2 hne hlen
      · rw [if_neg hr]
        by_cases hl : (goFields r).length ≠ format.length
        · rw [if_pos hl]; rfl
        · rw [if_neg hl]
          cases hsf : cdxSetFields CDXRecord.zero (format.zip (goFields r)) with
          | error e => simp [hsf, exceptOk]
          | ok record =>
            simp only [hsf]
            rw [exceptOk_map]
            exact ih row hmem2 hne hlen

set_option maxRecDepth 40000

/-! ### The claims -/

/-- Claim C1.  The claim states that the segmenter yields exactly N
chunks for N back-to-back well-formed records, skipping the declared
content length instead of scanning payload bytes for the marker.  The
code scans the raw buffer with bytes.Index: for the two independently
decodable records c1rec1 and c1rec2, whose first payload contains the
marker bytes, it yields three chunks, cutting record 1 at its payload
and emitting an undecodable middle chunk. -/
theorem c1_naive_scan_splits_payload :
    warcChunks (c1rec1 ++ c1rec2) = [c1chunkA, "WARC/yy", c1rec2] ∧
    (warcChunks (c1rec1 ++ c1rec2)).length = 3 ∧
    exceptOk (warcUnmarshal c1rec1) = true ∧
    exceptOk (warcUnmarshal c1rec2) = true ∧
    exceptOk (warcUnmarshal "WARC/yy") = false :=
  ⟨rfl, rfl, rfl, rfl, rfl⟩

/-- Claim C2.  The claim states that decode(encode(r)) is field-wise
equal to r for every valid record, including the string-list field and
the recomputed content length.  For the valid record c2rec the round
trip loses the WARC-Concurrent-To list (the decoder's setField has no
slice case, so the ", "-joined value is never split back) and zeroes
the uint64 ContentLength field (no unsigned case either), so the
result differs from c2rec. -/
theorem c2_round_trip_loses_fields :
    (warcHeaders c2rec).map Prod.fst = c2order ∧
    WARCRecord.validate c2rec = none ∧
    roundTripWARC c2order c2rec = Except.ok c2decoded ∧
    c2decoded.ConcurrentTo = [] ∧
    c2decoded.ContentLength = 0 ∧
    c2decoded ≠ c2rec :=
  ⟨rfl, rfl, rfl, rfl, rfl, by decide⟩

/-- Claim C3.  The claim states that after a successful decode the
Content length equals the record's content-length field and that
identifier, timestamp and kind are non-zero.  Decoding the
specification's own concrete scenario yields a 13-byte Content but a
zero ContentLength field (setField has no uint64 case), and a block
missing WARC-Date still decodes successfully with the zero timestamp. -/
theorem c3_invariants_fail_after_decode :
    warcUnmarshal c3input = Except.ok c3decoded ∧
    c3decoded.Content.length = 13 ∧
    c3decoded.ContentLength = 0 ∧
    warcUnmarshal c3inputB = Except.ok c3decodedB ∧
    c3decodedB.Date = Timestamp.zero :=
  ⟨rfl, rfl, rfl, rfl, rfl⟩

/-- Claim C4.  The claim states that Marshal emits exactly one header
line per non-omitted descriptor, in declaration order, so output is
byte-identical across calls.  The code ranges over a Go map, whose
iteration order is unspecified: two legal orders of the same key set
(c4order1 is exactly the header map's key list, c4order2 its reverse)
produce different bytes; moreover both outputs carry two
Content-Length lines for the single Content-Length descriptor, the
stale field value and the recomputed one. -/
theorem c4_unordered_and_duplicated_emission :
    (warcHeaders c4rec).map Prod.fst = c4order1 ∧
    c4order2 = c4order1.reverse ∧
    gwarcMarshal true c4order1 c4rec = Except.ok c4out1 ∧
    gwarcMarshal true c4order2 c4rec = Except.ok c4out2 ∧
    c4out1 ≠ c4out2 ∧
    countSub "Content-Length:" c4out1 = 2 :=
  ⟨rfl, rfl, rfl, rfl, by decide, rfl⟩

/-- Claim C5, counterexample.  The claim states that decoding a header
block missing a required wire key fails with the required-field error;
decoding c5input, which has no WARC-Record-ID line, instead succeeds
and leaves the identifier empty. -/
theorem c5_counterexample :
    warcUnmarshal c5input = Except.ok c5decoded ∧ c5decoded.RecordID = "" :=
  ⟨rfl, rfl⟩

/-- Claim C5 as amended: encoding a record that is missing a required
field fails with that field's required-field error when the record is
passed by pointer, while decoding a header block missing a required
wire key succeeds and leaves the field at its zero value (shown for a
block with no WARC-Type line). -/
theorem c5_required_field_enforcement :
    (∀ (r : WARCRecord) (order : List String) (e : String),
      WARCRecord.validate r = some e →
      gwarcMarshal true order r = Except.error e) ∧
    (warcUnmarshal c5inputB = Except.ok c5decodedB ∧ c5decodedB.RecType = "") := by
  constructor
  · intro r order e hv
    unfold gwarcMarshal
    rw [hv]
    rfl
  · exact ⟨rfl, rfl⟩

/-- Claim C5, witness for the amended theorem at a concrete record that
is valid except for its zero Date. -/
theorem c5_witness :
    WARCRecord.validate c5recW = some "WARC-Date is required" ∧
    gwarcMarshal true [] c5recW = Except.error "WARC-Date is required" :=
  ⟨rfl, c5_required_field_enforcement.1 c5recW [] "WARC-Date is required" rfl⟩

/-- Claim C6, counterexample.  The claim states that a "-" column
decodes to the empty string for string-kind fields and to zero for
numeric-kind fields without error; decoding c6inputA stores the
literal "-" in the string-kind Redirect field, and decoding c6inputB,
whose integer-kind V column is "-", fails. -/
theorem c6_counterexample :
    Except.map (fun f => f.Records.map CDXRecord.Redirect) (cdxUnmarshal c6inputA) =
      Except.ok ["-"] ∧
    exceptOk (cdxUnmarshal c6inputB) = false :=
  ⟨rfl, rfl⟩

/-- Claim C6 as amended: on encode a column whose field value is an
empty string, zero integer or zero time renders as the sentinel "-"
(shown for formatField over every kind and for a full file), while on
decode the sentinel receives no special treatment: a string-kind
column stores "-" verbatim and an integer-kind or time-kind column
fails to parse. -/
theorem c6_sentinel_encode_only :
    (∀ v : GoValue, v.isZero = true → formatField v = "-") ∧
    (∀ r : CDXRecord, cdxSetField r 'r' "-" = Except.ok { r with Redirect := "-" }) ∧
    (∀ r : CDXRecord, exceptOk (cdxSetField r 'V' "-") = false) ∧
    (∀ r : CDXRecord, exceptOk (cdxSetField r 'b' "-") = false) ∧
    cdxMarshal c6file = c6fileOut := by
  refine ⟨?_, ?_, ?_, ?_, rfl⟩
  · intro v hv
    cases v with
    | str s =>
      simp only [GoValue.isZero, decide_eq_true_eq] at hv
      simp [formatField, hv]
    | int n =>
      simp only [GoValue.isZero, decide_eq_true_eq] at hv
      simp [formatField, hv]
    | time t =>
      simp only [GoValue.isZero] at hv
      simp [formatField, hv]
  · intro r; rfl
  · intro r; rfl
  · intro r; rfl

/-- Claim C6, witness for the amended theorem at the empty string
value. -/
theorem c6_witness :
    GoValue.isZero (GoValue.str "") = true ∧ formatField (GoValue.str "") = "-" :=
  ⟨rfl, c6_sentinel_encode_only.1 (GoValue.str "") rfl⟩

/-- Claim C7.  The claim states that an integer-kind header value that
fails parsing aborts the decode with an invalid-field-value error; the
decoder's setField instead drops the strconv.ParseInt error, so
c7input, whose WARC-Segment-Number is "abc", decodes successfully with
the field left at zero even though the parse itself fails. -/
theorem c7_integer_parse_failure_ignored :
    goParseInt64 "abc" = none ∧
    warcUnmarshal c7input = Except.ok c7decoded ∧
    c7decoded.SegmentNumber = 0 :=
  ⟨rfl, rfl, rfl⟩

/-- Claim C8, counterexample.  The claim states that every header line
must contain exactly one colon, a violation failing the decode; the
WARC-Record-ID line of c8input contains four colons (one separator and
three inside the value) yet the decode succeeds, splitting at the
first colon. -/
theorem c8_counterexample :
    countSub ":" "WARC-Record-ID: <urn:uuid:x:y>" = 4 ∧
    warcUnmarshal c8input = Except.ok c8decoded ∧
    c8decoded.RecordID = "<urn:uuid:x:y>" :=
  ⟨rfl, rfl, rfl⟩

/-- Claim C8 as amended: every header line before the first blank line
must contain at least one colon, and the line is split at the first
one; if some such line has no colon at all, the decode fails. -/
theorem c8_no_colon_line_fails :
    ∀ (data : String) (vline rest : List Char),
      readLine data.data = some (vline, rest) →
      hasBadF (rest.length + 1) rest = true →
      exceptOk (warcUnmarshal data) = false := by
  intro data vline rest hrl hbad
  simp only [warcUnmarshal, hrl]
  exact warcAfterVersion_bad _ rest hbad

/-- Claim C8, witness at a concrete input whose first header line has
no colon. -/
theorem c8_witness :
    readLine c8winput.data = some (c8wvline, c8wrest) ∧
    hasBadF (c8wrest.length + 1) c8wrest = true ∧
    exceptOk (warcUnmarshal c8winput) = false :=
  ⟨rfl, rfl, c8_no_colon_line_fails c8winput c8wvline c8wrest rfl rfl⟩

/-- Claim C9.  Decoding fails whenever any non-empty data row's
whitespace-separated field count differs from the number of columns of
the header line's format; the failure aborts cdx.Unmarshal, which
returns only the error and no partial file. -/
theorem c9_field_count_mismatch :
    ∀ (data header : String) (rows : List String) (row : String),
      cdxLines data = header :: rows → row ∈ rows → row ≠ "" →
      (goFields row).length ≠ (cdxFormatOf header).length →
      exceptOk (cdxUnmarshal data) = false := by
  intro data header rows row hlines hmem hne hlen
  by_cases hd : data = ""
  · subst hd
    have hl : cdxLines "" = [""] := rfl
    rw [hl] at hlines
    injection hlines with h1 h2
    rw [← h2] at hmem
    exact absurd hmem (List.not_mem_nil row)
  · simp only [cdxUnmarshal, if_neg hd, hlines]
    by_cases hp : ("CDX".data.isPrefixOf header.data) = true
    · simp only [hp, if_true]
      have hbad := parseRows_not_ok (cdxFormatOf header) rows row hmem hne hlen
      cases hpr : parseRows (cdxFormatOf header) rows with
      | error e => simp [hpr, exceptOk]
      | ok recs => simp [hpr, exceptOk] at hbad
    · have hp2 : ("CDX".data.isPrefixOf header.data) = false := by
        cases h : ("CDX".data.isPrefixOf header.data) with
        | true => exact absurd h hp
        | false => rfl
      simp [hp2, exceptOk]

/-- Claim C9, witness at a concrete two-column file with a one-field
row. -/
theorem c9_witness :
    cdxLines c9w = "CDX N b" :: ["x"] ∧
    ("x" : String) ∈ ["x"] ∧ ("x" : String) ≠ "" ∧
    (goFields "x").length ≠ (cdxFormatOf "CDX N b").length ∧
    exceptOk (cdxUnmarshal c9w) = false :=
  ⟨rfl, List.mem_singleton.mpr rfl, by decide, by decide,
    c9_field_count_mismatch c9w "CDX N b" ["x"] "x" rfl
      (List.mem_singleton.mpr rfl) (by decide) (by decide)⟩

/-- Claim C10.  Validate has a pointer receiver, so gwarc.Marshal's
interface assertion sees it only when the caller passes a pointer: for
every record missing a required field, marshalling the pointer fails
with the validation error while marshalling the same record by value
skips the check and succeeds, whatever order the header map is
iterated in. -/
theorem c10_pointer_only_validation :
    ∀ (r : WARCRecord) (order : List String) (e : String),
      WARCRecord.validate r = some e →
      gwarcMarshal true order r = Except.error e ∧
      exceptOk (gwarcMarshal false order r) = true := by
  intro r order e hv
  constructor
  · unfold gwarcMarshal
    rw [hv]
    rfl
  · rfl

/-- Claim C10, witness at a concrete record with an empty RecordID. -/
theorem c10_witness :
    WARCRecord.validate c10rec = some "WARC-Record-ID is required" ∧
    (gwarcMarshal true [] c10rec = Except.error "WARC-Record-ID is required" ∧
      exceptOk (gwarcMarshal false [] c10rec) = true) :=
  ⟨rfl, c10_pointer_only_validation c10rec [] "WARC-Record-ID is required" rfl⟩
